import Mathlib

/-!
Verification of the portal front-end login SPA (TypeScript sources under
`src/`) against its natural-language specification.  Each TypeScript
function that a claim touches is shallowly embedded as an executable Lean
definition; browser effects (DOM updates, redirects, notifications,
cookies) are reified as data in the result records, and every external
call (the Amplify SDK, `fetch`, `document.getElementById`) is an input
supplied through an environment record, `Except` - valued when the call
can throw.  Logging (`console.*`) and `sessionStorage` writes are elided:
no claim mentions them and they do not influence any returned status.
-/

namespace Portal

/-- A thrown JavaScript error, reduced to the two fields the code
inspects: `name` and `message`. -/
structure JSError where
  name : String
  message : String
  deriving Repr, DecidableEq

/-- JavaScript string truthiness for an optional string:
`undefined`/`null` and the empty string are falsy. -/
def jsTruthy : Option String → Bool
  | none => false
  | some s => s ≠ ""

/-- JavaScript `a || b` on optional strings: yields `a` when truthy,
otherwise `b` as-is. -/
def jsOr (a b : Option String) : Option String :=
  if jsTruthy a then a else b

/-- Does the list start with the pattern? -/
def listStartsWith : List Char → List Char → Bool
  | _, [] => true
  | [], _ :: _ => false
  | c :: cs, p :: ps => c == p && listStartsWith cs ps

/-- Does the pattern occur anywhere in the list? -/
def listContainsSub (pat : List Char) : List Char → Bool
  | [] => listStartsWith [] pat
  | c :: cs => listStartsWith (c :: cs) pat || listContainsSub pat cs

/-- JavaScript `s.includes(pat)`. -/
def containsSubstr (s pat : String) : Bool :=
  listContainsSub pat.data s.data

/-! ### `src/utils/state.ts` — the two in-memory globals

The module holds `let email: string | null` and
`let password: string | null`; the six exported functions set, read and
clear them.  The module state is embedded as a record and each function
as a state transformer / reader. -/

/-- The module-level state of `state.ts`: the pending email and pending
temporary password, each `null` (`none`) until set. -/
structure AuthModuleState where
  email : Option String
  password : Option String
  deriving Repr, DecidableEq

/-- `setEmail(value)` — stores the value in the `email` global. -/
def setEmail (value : String) (s : AuthModuleState) : AuthModuleState :=
  { s with email := some value }

/-- `getEmail()` — returns the `email` global (`null` when unset). -/
def getEmail (s : AuthModuleState) : Option String :=
  s.email

/-- `clearEmail()` — resets the `email` global to `null`. -/
def clearEmail (s : AuthModuleState) : AuthModuleState :=
  { s with email := none }

/-- `setPassword(value)` — stores the value in the `password` global. -/
def setPassword (value : String) (s : AuthModuleState) : AuthModuleState :=
  { s with password := some value }

/-- `getPassword()` — returns the `password` global. -/
def getPassword (s : AuthModuleState) : Option String :=
  s.password

/-- `clearPassword()` — resets the `password` global to `null`. -/
def clearPassword (s : AuthModuleState) : AuthModuleState :=
  { s with password := none }

/-! ### `src/utils/query.ts` — hash query parameters

`getHashQueryParam` and `getAllHashQueryParams` both locate the first
`?` in `window.location.hash` and hand the substring after it to
`URLSearchParams`.  The `URLSearchParams` string constructor is embedded
as `parseQuery` (WHATWG application/x-www-form-urlencoded parsing at the
byte level; multi-byte UTF-8 recombination is immaterial because both
embedded functions share this one parser), and `URLSearchParams.get` as
`paramsGet`. -/

/-- Value of a hexadecimal digit, or `none`. -/
def hexVal (c : Char) : Option Nat :=
  if '0' ≤ c ∧ c ≤ '9' then some (c.toNat - '0'.toNat)
  else if 'a' ≤ c ∧ c ≤ 'f' then some (c.toNat - 'a'.toNat + 10)
  else if 'A' ≤ c ∧ c ≤ 'F' then some (c.toNat - 'A'.toNat + 10)
  else none

/-- Percent-decoding: `%xy` with two hex digits becomes the byte
`16*x + y`; anything else is copied through. -/
def percentDecode : List Char → List Char
  | [] => []
  | '%' :: a :: b :: rest =>
    match hexVal a, hexVal b with
    | some ha, some hb => Char.ofNat (16 * ha + hb) :: percentDecode rest
    | _, _ => '%' :: percentDecode (a :: b :: rest)
  | c :: rest => c :: percentDecode rest
termination_by l => l.length

/-- In urlencoded data `+` encodes a space. -/
def plusToSpace (l : List Char) : List Char :=
  l.map (fun c => if c = '+' then ' ' else c)

/-- Split a character list on a separator character; `n` separators
yield `n+1` (possibly empty) pieces. -/
def splitOnChar (sep : Char) : List Char → List (List Char)
  | [] => [[]]
  | c :: rest =>
    if c = sep then [] :: splitOnChar sep rest
    else
      match splitOnChar sep rest with
      | [] => [[c]]
      | piece :: more => (c :: piece) :: more

/-- One `name=value` piece: name is everything before the first `=`,
value everything after it (empty when there is no `=`); both are
plus-and-percent decoded. -/
def parsePair (piece : List Char) : String × String :=
  let name := piece.takeWhile (fun c => c != '=')
  let value := (piece.dropWhile (fun c => c != '=')).drop 1
  (String.mk (percentDecode (plusToSpace name)),
   String.mk (percentDecode (plusToSpace value)))

/-- The `URLSearchParams` string constructor: strip a single leading
`?`, split on `&`, drop empty pieces, parse each piece. -/
def parseQuery (s : String) : List (String × String) :=
  let l := match s.data with
    | '?' :: rest => rest
    | l => l
  ((splitOnChar '&' l).filter (fun piece => !piece.isEmpty)).map parsePair

/-- `URLSearchParams.get(key)`: the value of the first pair with that
name, or `null`. -/
def paramsGet (ps : List (String × String)) (key : String) : Option String :=
  (ps.find? (fun p => p.1 == key)).map (fun p => p.2)

/-- `hash.indexOf('?')` / `hash.substring(queryIndex + 1)`: the
substring after the first `?`, or `none` when the hash has no `?`. -/
def afterFirstQmark (hash : String) : Option String :=
  if hash.data.contains '?' then
    some (String.mk ((hash.data.dropWhile (fun c => c != '?')).drop 1))
  else none

/-- `getHashQueryParam(key)` (query.ts:11-19): `null` when the hash has
no `?`, otherwise the `key` entry of the parsed query string. -/
def getHashQueryParam (hash : String) (key : String) : Option String :=
  match afterFirstQmark hash with
  | none => none
  | some qs => paramsGet (parseQuery qs) key

/-- `getAllHashQueryParams()` (query.ts:31-36): parse the substring
after the first `?`, or the empty string when there is no `?`. -/
def getAllHashQueryParams (hash : String) : List (String × String) :=
  parseQuery ((afterFirstQmark hash).getD "")

/-! ### `src/app.ts` — the hash router

`handleRoute` reads `window.location.hash`, resolves a route, gates
non-public routes behind `Auth.checkSession()`, and loads the route's
component.  DOM/bundle effects are reified in `RouteAction`; the
environment supplies the routes table, the session-check outcome (which
can throw) and whether the `#modal-session` element is on the page. -/

/-- `PUBLIC_ROUTES` (query.ts:40-41). -/
def PUBLIC_ROUTES : List String :=
  ["/", "/login", "/login/admin", "/forgot-password", "/mfa",
   "/reset-password", "/mfa-setup", "/reset-password-confirm",
   "/update-password", "/post-password-change", "/register"]

/-- One entry of the `routes.json` table: `component` may be absent or
empty (both falsy in the `!route.component` guard). -/
structure Route where
  component : Option String
  child : Option String
  deriving Repr, DecidableEq

/-- The world `handleRoute` observes. -/
structure RouteEnv where
  rawHash : String
  routes : List (String × Route)
  sessionValid : Except JSError Bool
  modalPresent : Bool
  deriving Repr

/-- `const hash = window.location.hash.slice(1) || '/'` followed by
`hash.split('?')[0]`: drop the leading `#`, default to `/` when empty,
keep everything before the first `?`. -/
def routePathOf (rawHash : String) : String :=
  let h := rawHash.data.drop 1
  let h := if h.isEmpty then ['/'] else h
  String.mk (h.takeWhile (fun c => c != '?'))

/-- `window.routes?.[routePath]`. -/
def lookupRoute (routes : List (String × Route)) (path : String) : Option Route :=
  (routes.find? (fun p => p.1 == path)).map (fun p => p.2)

/-- Is the lookup result a missing entry or an entry whose `component`
is falsy (`!route || !route.component`)? -/
def routeMissing : Option Route → Bool
  | none => true
  | some r => !(jsTruthy r.component)

/-- What `handleRoute` ends up doing. -/
inductive RouteAction where
  | noRoute
  | sessionExpired (modalShown : Bool)
  | redirectBase
  | load (component : String)
  deriving Repr, DecidableEq

/-- Outcome of `handleRoute` plus whether `Auth.checkSession()` ran. -/
structure RouteResult where
  action : RouteAction
  sessionChecked : Bool
  deriving Repr, DecidableEq

/-- `handleRoute` (app.ts:65-128).  `.noRoute` is the early return with
the view untouched; `.sessionExpired m` is the invalid-session return
(the `#modal-session` modal is shown iff the element is present, `m`);
`.redirectBase` is the catch branch that navigates to `BASE_URL`;
`.load c` covers both the first-load and `updateChildView` branches. -/
def handleRoute (env : RouteEnv) : RouteResult :=
  match lookupRoute env.routes (routePathOf env.rawHash) with
  | none => { action := .noRoute, sessionChecked := false }
  | some route =>
    if !(jsTruthy route.component) then
      { action := .noRoute, sessionChecked := false }
    else if PUBLIC_ROUTES.contains (routePathOf env.rawHash) then
      { action := .load (route.component.getD ""), sessionChecked := false }
    else
      match env.sessionValid with
      | .error _ => { action := .redirectBase, sessionChecked := true }
      | .ok false =>
        { action := .sessionExpired env.modalPresent, sessionChecked := true }
      | .ok true =>
        { action := .load (route.component.getD ""), sessionChecked := true }

/-! ### `src/utils/query.ts` — `signInUser` (lines 72-213)

The environment supplies the outcome of each external call in program
order; `Except JSError` marks the calls that can throw.  `sessionStorage`
writes, cookie writes and `console.*` logging inside `signInUser` are
elided: they affect neither the returned record nor how many times the
provider's `signIn` runs. -/

/-- The `totpSetupDetails` object: only `getSetupUri` is ever called on
it. -/
structure TotpSetupDetails where
  sharedSecret : String
  deriving Repr, DecidableEq

/-- `totpSetupDetails.getSetupUri(issuer, account).toString()` — the
otpauth provisioning URI. -/
def getSetupUri (d : TotpSetupDetails) (issuer account : String) : String :=
  "otpauth://totp/" ++ issuer ++ ":" ++ account ++
    "?secret=" ++ d.sharedSecret ++ "&issuer=" ++ issuer

/-- The part of an Amplify `SignInOutput` the code reads. -/
structure SignInResult where
  isSignedIn : Bool
  signInStep : String
  totpSetupDetails : Option TotpSetupDetails
  deriving Repr, DecidableEq

/-- `fetchMFAPreference()` as the code reads it. -/
structure MFAPreference where
  preferred : Option String
  enabled : List String
  deriving Repr, DecidableEq

/-- `fetchAuthSession().tokens` as the code reads it. -/
structure AuthTokens where
  accessToken : Option String
  idToken : Option String
  deriving Repr, DecidableEq

/-- `JSON.parse(atob(accessToken.split('.')[1]))`, reduced to the two
fields read. -/
structure TokenPayload where
  sub : Option String
  cognitoUsername : Option String
  deriving Repr, DecidableEq

/-- The `get-user-by-cognito-id` API response: HTTP `ok` flag plus the
`authMethod` field of its JSON body. -/
structure ApiUserResponse where
  ok : Bool
  authMethod : Option String
  deriving Repr, DecidableEq

/-- Outcomes of the external calls `signInUser` makes, in program
order.  `signOutResult` stands for the `signOut()` calls (the one in the
already-signed-in catch propagates a failure; the one before returning
`PasskeyRequired` throws into the fail-open catch). -/
structure SignInEnv where
  firstSignIn : Except JSError SignInResult
  signOutResult : Except JSError Unit
  secondSignIn : Except JSError SignInResult
  listCreds : Except JSError (List String)
  mfaPref : Except JSError MFAPreference
  innerSession : Except JSError AuthTokens
  decodePayload : Except JSError TokenPayload
  apiResponse : Except JSError ApiUserResponse
  outerSession : Except JSError AuthTokens

/-- The record `signInUser` resolves with. -/
structure SignInOutcome where
  status : String
  mfaSetupUrl : Option String := none
  error : Option String := none
  deriving Repr, DecidableEq

/-- Result of a `signInUser` run: the resolved record or the rethrown
error, plus how many times the provider's `signIn` was invoked. -/
structure SignInRun where
  result : Except JSError SignInOutcome
  signInCalls : Nat

/-- query.ts:136-191 — the branch for a signed-in user with neither MFA
nor passkeys.  The inner `try` (136-185) returns the
temporarily-unavailable failure from its own `catch` and from the
`!response.ok` check; every fall-through reaches line 187-191 and
returns `MFASetup` with an empty `mfaSetupUrl`. -/
def noSecondFactorFlow (env : SignInEnv) : SignInOutcome :=
  let apiFailure : SignInOutcome :=
    { status := "Failed"
      error := some "Sign-in is temporarily unavailable due to a system issue. Please try again later." }
  match env.innerSession with
  | .error _ => apiFailure
  | .ok tokens =>
    if jsTruthy tokens.accessToken then
      match env.decodePayload with
      | .error _ => apiFailure
      | .ok payload =>
        if jsTruthy (jsOr payload.sub payload.cognitoUsername) then
          match env.apiResponse with
          | .error _ => apiFailure
          | .ok resp =>
            if !resp.ok then apiFailure
            else if resp.authMethod == some "password-only" then
              { status := "Success" }
            else { status := "MFASetup", mfaSetupUrl := some "" }
        else { status := "MFASetup", mfaSetupUrl := some "" }
    else { status := "MFASetup", mfaSetupUrl := some "" }

/-- query.ts:109-212 — the `result.isSignedIn` branch.  The outer
`try`/`catch` (112/206) fails open: any throw from
`listWebAuthnCredentials`, `fetchMFAPreference`, the `PasskeyRequired`
`signOut`, or the final `fetchAuthSession` falls through to the
`Success` return at line 212. -/
def signedInFlow (env : SignInEnv) : SignInOutcome :=
  match env.listCreds with
  | .error _ => { status := "Success" }
  | .ok creds =>
    if creds.length > 0 then
      match env.signOutResult with
      | .error _ => { status := "Success" }
      | .ok _ =>
        { status := "PasskeyRequired"
          error := some "You have passkeys registered. Please use the \"Sign in with Passkey\" button instead of password." }
    else
      match env.mfaPref with
      | .error _ => { status := "Success" }
      | .ok pref =>
        if !(pref.preferred == some "TOTP" || pref.enabled.contains "TOTP") then
          noSecondFactorFlow env
        else
          match env.outerSession with
          | .error _ => { status := "Success" }
          | .ok _ => { status := "Success" }

/-- query.ts:92-212 — dispatch on the first successful `signIn` result:
the four not-signed-in next-step branches, the signed-in branch, and the
final `Success` fall-through. -/
def dispatchSignIn (env : SignInEnv) (email : String) (r : SignInResult) :
    SignInOutcome :=
  if !r.isSignedIn && r.signInStep == "CONTINUE_SIGN_IN_WITH_TOTP_SETUP" then
    { status := "MFASetup"
      mfaSetupUrl := r.totpSetupDetails.map (fun d => getSetupUri d "OpenLogx" email) }
  else if !r.isSignedIn && r.signInStep == "CONFIRM_SIGN_IN_WITH_TOTP_CODE" then
    { status := "MFA" }
  else if !r.isSignedIn && r.signInStep == "RESET_PASSWORD" then
    { status := "ResetPasswordConfirm" }
  else if !r.isSignedIn && r.signInStep == "CONFIRM_SIGN_IN_WITH_NEW_PASSWORD_REQUIRED" then
    { status := "UpdatePassword" }
  else if r.isSignedIn then signedInFlow env
  else { status := "Success" }

/-- `signInUser(email, password)` (query.ts:72-213).  The catch at
lines 82-90 retries `signIn` once — after a `signOut` — iff the thrown
message contains `There is already a signed in user`; any other error is
rethrown. -/
def signInUser (env : SignInEnv) (email password : String) : SignInRun :=
  match env.firstSignIn with
  | .ok r => { result := .ok (dispatchSignIn env email r), signInCalls := 1 }
  | .error e =>
    if containsSubstr e.message "There is already a signed in user" then
      match env.signOutResult with
      | .error e2 => { result := .error e2, signInCalls := 1 }
      | .ok _ =>
        match env.secondSignIn with
        | .error e2 => { result := .error e2, signInCalls := 2 }
        | .ok r => { result := .ok (dispatchSignIn env email r), signInCalls := 2 }
    else { result := .error e, signInCalls := 1 }

/-! ### `src/components/mfa/component.ts` — the MFA submit handler

The handler joins the six digit inputs, trims, validates the length,
shows/hides the `#mfa-error-message` banner, calls `verifyMFACode` once,
and either redirects or restores the button and raises a toast.  DOM
effects are reified in `MfaSubmitResult`; element presence
(`if (errorBox)`, `if (submitBtn)`) comes from the environment. -/

/-- JavaScript `s || d` for a string against a default. -/
def jsStrOr (s d : String) : String :=
  if s ≠ "" then s else d

/-- JavaScript `a || d` for an optional string against a default. -/
def jsOrDefault (a : Option String) (d : String) : String :=
  match a with
  | some s => jsStrOr s d
  | none => d

/-- `verifyMFACode`'s resolved record. -/
structure VerifyOutcome where
  status : String
  errorMsg : Option String := none
  deriving Repr, DecidableEq

/-- The world one MFA form submission observes. -/
structure MfaEnv where
  digits : List String
  errorBoxPresent : Bool
  submitBtnPresent : Bool
  verifyResult : Except JSError VerifyOutcome
  authEndpoint : String
  deriving Repr

/-- What the submission did to the `#mfa-error-message` banner. -/
inductive BannerChange where
  | shown (msg : String)
  | hidden
  | untouched
  deriving Repr, DecidableEq

/-- Reified effects of one run of the submit handler. -/
structure MfaSubmitResult where
  verifyCalls : Nat
  banner : BannerChange
  redirect : Option String
  submitBtnDisabled : Option Bool
  notifications : List (String × String × String)
  deriving Repr, DecidableEq

/-- `String.prototype.trim`: strip leading and trailing whitespace. -/
def trimChars (l : List Char) : List Char :=
  ((l.dropWhile Char.isWhitespace).reverse.dropWhile Char.isWhitespace).reverse

/-- `Array.from(digits).map(d => d.value).join('').trim()`. -/
def joinedCode (digits : List String) : String :=
  String.mk (trimChars (String.join digits).data)

/-- Did the verification succeed (resolve with status `Success`)? -/
def verifySucceeded (env : MfaEnv) : Bool :=
  match env.verifyResult with
  | .ok r => r.status == "Success"
  | .error _ => false

/-- The submit handler (mfa/component.ts:79-130). -/
def submitMfaForm (env : MfaEnv) : MfaSubmitResult :=
  if (joinedCode env.digits).length != 6 then
    { verifyCalls := 0
      banner := if env.errorBoxPresent then
          .shown "Please enter a full 6-digit code" else .untouched
      redirect := none
      submitBtnDisabled := none
      notifications := [] }
  else
    match env.verifyResult with
    | .ok r =>
      if r.status == "Success" then
        { verifyCalls := 1
          banner := if env.errorBoxPresent then .hidden else .untouched
          redirect := some env.authEndpoint
          submitBtnDisabled := if env.submitBtnPresent then some true else none
          notifications := [] }
      else
        { verifyCalls := 1
          banner := if env.errorBoxPresent then .hidden else .untouched
          redirect := none
          submitBtnDisabled := if env.submitBtnPresent then some false else none
          notifications :=
            [("error", jsOrDefault r.errorMsg "MFA code verification failed.",
              "MFA Error")] }
    | .error e =>
      { verifyCalls := 1
        banner := if env.errorBoxPresent then .hidden else .untouched
        redirect := none
        submitBtnDisabled := if env.submitBtnPresent then some false else none
        notifications :=
          [("error", jsStrOr e.message "Unexpected error during MFA verification.",
            "MFA Error")] }

/-! ### `src/utils/query.ts` — `signInWithPasskey` (lines 282-376) and
the login component's passkey click handler -/

/-- A `nextStep` object of the passkey `signIn` call. -/
structure NextStep where
  signInStep : String
  availableChallenges : List String
  deriving Repr, DecidableEq

/-- The passkey `signIn` resolution. -/
structure PasskeySignInResult where
  isSignedIn : Bool
  nextStep : Option NextStep
  deriving Repr, DecidableEq

/-- The world `signInWithPasskey` observes.  Token-setting effects after
a successful sign-in are elided (their errors are caught and only
logged). -/
structure PasskeyEnv where
  webAuthnSupported : Bool
  signInResult : Except JSError PasskeySignInResult
  deriving Repr

/-- The record `signInWithPasskey` resolves with; the function catches
every error, so it never rejects. -/
structure PasskeyOutcome where
  status : String
  error : Option String := none
  deriving Repr, DecidableEq

/-- `signInWithPasskey(email)` (query.ts:282-376). -/
def signInWithPasskey (env : PasskeyEnv) : PasskeyOutcome :=
  if !env.webAuthnSupported then
    { status := "NotSupported"
      error := some "WebAuthn is not supported on this browser" }
  else
    match env.signInResult with
    | .ok r =>
      if r.isSignedIn then { status := "Success" }
      else
        match r.nextStep with
        | some ns =>
          if ns.signInStep == "DONE" then { status := "Success" }
          else if ns.signInStep == "CONTINUE_SIGN_IN_WITH_FIRST_FACTOR_SELECTION"
              && !(ns.availableChallenges.contains "WEB_AUTHN") then
            { status := "NoPasskey"
              error := some "No passkey registered for this account. Please register a passkey from your profile after signing in." }
          else
            { status := "Failed"
              error := some ("Unexpected sign-in step: " ++ ns.signInStep) }
        | none =>
          { status := "Failed"
            error := some "Passkey authentication did not complete successfully" }
    | .error e =>
      if e.name == "NotAllowedError" then
        { status := "Cancelled", error := some "Authentication was cancelled" }
      else if e.name == "EmptySignInPassword" then
        { status := "NoPasskey"
          error := some "No passkey registered for this account" }
      else if containsSubstr e.message "No credentials available"
          || containsSubstr e.message "no credentials"
          || containsSubstr e.message "User does not have"
          || e.name == "InvalidStateError" then
        { status := "NoPasskey", error := some "No passkey found for this device" }
      else { status := "Failed", error := some e.message }

/-- The login component's passkey click handler `switch` on the
returned status (login component, lines 274-318): the redirect it sets
and the notifications it raises.  The `default` case only logs a
console warning — no notification — which is the branch a `Cancelled`
status takes. -/
def passkeyClickActions (outcome : PasskeyOutcome) (authEndpoint : String) :
    Option String × List (String × String × String) :=
  if outcome.status == "Success" then (some authEndpoint, [])
  else if outcome.status == "NoPasskey" then
    (none,
     [("warning",
       "No passkey found for this account. Please sign in with email and password.",
       "Passkey Not Found")])
  else if outcome.status == "NotSupported" then
    (none,
     [("error",
       "Passkey authentication is not supported on this browser or device.",
       "Not Supported")])
  else (none, [])

/-! ### `src/utils/query.ts` — `setJWTCookie` (lines 519-553)

The JWT's base64/JSON payload decoding is an environment input
(`parsedPayload`), `Except`-valued for the `catch` branch; the `exp`
field may be absent, in which case `payload.exp * 1000` is `NaN`, the
`expiryDate <= new Date()` comparison is false, and a cookie with an
`Invalid Date` expiry string (encoded `expiresMs := none`) is written.
`fallbackExpiry.setHours(getHours() + 1)` adds one hour. -/

/-- The decoded JWT payload, reduced to the `exp` field (seconds). -/
structure JWTPayloadRec where
  exp : Option Int
  deriving Repr, DecidableEq

/-- The world `setJWTCookie` observes: the token, its payload-decoding
outcome, and the current time in milliseconds. -/
structure CookieEnv where
  jwt : String
  parsedPayload : Except Unit JWTPayloadRec
  nowMs : Int
  deriving Repr

/-- A write to `document.cookie`: the token, the expiry in milliseconds
(`none` for the `Invalid Date` expiry), and whether it came from the
1-hour fallback branch. -/
structure CookieWrite where
  token : String
  expiresMs : Option Int
  fallback : Bool
  deriving Repr, DecidableEq

/-- `setJWTCookie(jwt)` (query.ts:519-553); `none` means the function
returned without touching `document.cookie`. -/
def setJWTCookie (env : CookieEnv) : Option CookieWrite :=
  if env.jwt = "" then none
  else
    match env.parsedPayload with
    | .error _ =>
      some { token := env.jwt, expiresMs := some (env.nowMs + 3600000),
             fallback := true }
    | .ok p =>
      match p.exp with
      | some e =>
        if e * 1000 ≤ env.nowMs then none
        else some { token := env.jwt, expiresMs := some (e * 1000),
                    fallback := false }
      | none =>
        some { token := env.jwt, expiresMs := none, fallback := false }

/-- A benign `signInUser` environment used to instantiate theorems at
concrete inputs. -/
def notSignedInTotpCode : SignInResult :=
  { isSignedIn := false
    signInStep := "CONFIRM_SIGN_IN_WITH_TOTP_CODE"
    totpSetupDetails := none }

def baseSignInEnv : SignInEnv :=
  { firstSignIn := .ok notSignedInTotpCode
    signOutResult := .ok ()
    secondSignIn := .ok notSignedInTotpCode
    listCreds := .ok []
    mfaPref := .ok { preferred := none, enabled := [] }
    innerSession := .ok { accessToken := none, idToken := none }
    decodePayload := .ok { sub := none, cognitoUsername := none }
    apiResponse := .ok { ok := true, authMethod := none }
    outerSession := .ok { accessToken := none, idToken := none } }

/-- The one error the code retries after: a user is already signed
in. -/
def alreadySignedInError : JSError :=
  { name := "UserAlreadyAuthenticatedException"
    message := "There is already a signed in user." }

/-- An ordinary credential error. -/
def badPasswordError : JSError :=
  { name := "NotAuthorizedException"
    message := "Incorrect username or password." }

/-- Environment whose first `signIn` rejects because a user is already
signed in. -/
def retrySignInEnv : SignInEnv :=
  { baseSignInEnv with firstSignIn := .error alreadySignedInError }

/-- Environment whose first `signIn` rejects with an ordinary
credential error. -/
def failSignInEnv : SignInEnv :=
  { baseSignInEnv with firstSignIn := .error badPasswordError }

/-- A complete 6-digit MFA submission whose verification succeeds. -/
def sampleMfaEnv : MfaEnv :=
  { digits := ["1", "2", "3", "4", "5", "6"]
    errorBoxPresent := true
    submitBtnPresent := true
    verifyResult := .ok { status := "Success" }
    authEndpoint := "/secure/" }

/-- An incomplete MFA submission (three digits). -/
def shortMfaEnv : MfaEnv :=
  { digits := ["1", "2", "3"]
    errorBoxPresent := true
    submitBtnPresent := true
    verifyResult := .ok { status := "Failed", errorMsg := some "MFA code invalid or not accepted." }
    authEndpoint := "/secure/" }

/-- A complete MFA submission whose verification fails. -/
def failedMfaEnv : MfaEnv :=
  { digits := ["1", "2", "3", "4", "5", "6"]
    errorBoxPresent := true
    submitBtnPresent := true
    verifyResult := .ok { status := "Failed", errorMsg := some "MFA code invalid or not accepted." }
    authEndpoint := "/secure/" }

/-- The `NotAllowedError` a cancelled WebAuthn dialog throws. -/
def cancelledDialogError : JSError :=
  { name := "NotAllowedError"
    message := "The operation either timed out or was not allowed." }

/-- A passkey sign-in cancelled in the browser dialog. -/
def cancelPasskeyEnv : PasskeyEnv :=
  { webAuthnSupported := true
    signInResult := .error cancelledDialogError }

/-- A JWT whose payload parses and whose `exp` is in the past. -/
def expiredCookieEnv : CookieEnv :=
  { jwt := "eyJhbGciOi.eyJleHAi.sig", parsedPayload := .ok { exp := some 1000 },
    nowMs := 2000000 }

-- ### Theorems

/-- C5: the two in-memory globals follow the set / read-back / clear
lifecycle, and operations on one leave the other unchanged:
after `setEmail v`, `getEmail` returns `v`; after `clearEmail`,
`getEmail` returns `null`; likewise for the password; and each
setter/clearer of one global preserves the other. -/
theorem state_globals_lifecycle (v : String) (s : AuthModuleState) :
    getEmail (setEmail v s) = some v ∧
    getEmail (clearEmail s) = none ∧
    getPassword (setPassword v s) = some v ∧
    getPassword (clearPassword s) = none ∧
    getPassword (setEmail v s) = getPassword s ∧
    getPassword (clearEmail s) = getPassword s ∧
    getEmail (setPassword v s) = getEmail s ∧
    getEmail (clearPassword s) = getEmail s := by
  refine ⟨rfl, rfl, rfl, rfl, rfl, rfl, rfl, rfl⟩

/-- C8: `getHashQueryParam(key)` agrees with
`getAllHashQueryParams().get(key)` on every hash and key: both return
`null` when the hash has no `?`, and otherwise parse the same substring
after the first `?`. -/
theorem hash_param_functions_agree (hash key : String) :
    getHashQueryParam hash key = paramsGet (getAllHashQueryParams hash) key := by
  unfold getHashQueryParam getAllHashQueryParams
  cases h : afterFirstQmark hash with
  | none => rfl
  | some qs => rfl

lemma takeWhile_neq_append {p : List Char} (h : p.contains '?' = false)
    (q : List Char) :
    (p ++ '?' :: q).takeWhile (fun c => c != '?') = p := by
  induction p with
  | nil => rfl
  | cons c rest ih =>
    simp only [List.contains_cons, Bool.or_eq_false_iff,
      beq_eq_false_iff_ne] at h
    obtain ⟨h1, h2⟩ := h
    have hc : (c != '?') = true := by
      simp [bne_iff_ne]
      exact fun hcq => h1 hcq.symm
    simp only [List.cons_append, List.takeWhile_cons, hc, if_true]
    rw [ih h2]

/-- C7: the router resolves the hash after `#` (defaulting to `/` when
the hash is empty), strips any `?query` suffix, looks the path up in the
routes table, and — when no entry, or an entry without a component,
exists — returns without loading anything (the current view is
unchanged). -/
theorem router_hash_dispatch (env : RouteEnv) :
    (env.rawHash = "" → routePathOf env.rawHash = "/") ∧
    (∀ p q : String, p.data.contains '?' = false →
        routePathOf ("#" ++ p ++ "?" ++ q) = p) ∧
    (routeMissing (lookupRoute env.routes (routePathOf env.rawHash)) = true →
        handleRoute env = { action := .noRoute, sessionChecked := false }) := by
  refine ⟨?_, ?_, ?_⟩
  · intro h; rw [h]; rfl
  · intro p q hpq
    unfold routePathOf
    have hdata : ("#" ++ p ++ "?" ++ q).data = '#' :: (p.data ++ '?' :: q.data) := by
      simp [String.data_append]
    rw [hdata]
    simp only [List.drop_succ_cons, List.drop_zero]
    have hne : (p.data ++ '?' :: q.data).isEmpty = false := by
      cases hp : p.data <;> simp [hp]
    rw [if_neg (by simp [hne])]
    rw [takeWhile_neq_append hpq]
  · intro hmiss
    unfold handleRoute
    cases hl : lookupRoute env.routes (routePathOf env.rawHash) with
    | none => rfl
    | some r =>
      have hcomp : jsTruthy r.component = false := by
        have := hmiss
        rw [hl] at this
        simpa [routeMissing] using this
      simp [hcomp]

/-- Witness for C7 at a concrete environment: a hash whose path has no
route entry makes `handleRoute` a no-op. -/
theorem router_hash_dispatch_witness :
    routeMissing (lookupRoute [("/login", ⟨some "login", none⟩)]
        (routePathOf "#/nope")) = true ∧
    handleRoute ⟨"#/nope", [("/login", ⟨some "login", none⟩)], .ok true, true⟩ =
      { action := .noRoute, sessionChecked := false } :=
  ⟨by decide,
   (router_hash_dispatch
      ⟨"#/nope", [("/login", ⟨some "login", none⟩)], .ok true, true⟩).2.2
     (by decide)⟩

/-- C10: when the resolved route has a component, public routes load it
without any session check, while non-public routes run the session check
first; a failing check ends in the session-expired branch (the modal is
shown exactly when the `#modal-session` element is present) and the
component is loaded only when the check reports a valid session. -/
theorem router_session_gate (env : RouteEnv) (r : Route) (c : String)
    (hfound : lookupRoute env.routes (routePathOf env.rawHash) = some r)
    (hcomp : r.component = some c) (hc : c ≠ "") :
    (PUBLIC_ROUTES.contains (routePathOf env.rawHash) = true →
        handleRoute env = { action := .load c, sessionChecked := false }) ∧
    (PUBLIC_ROUTES.contains (routePathOf env.rawHash) = false →
        (handleRoute env).sessionChecked = true ∧
        (env.sessionValid = .ok false →
            (handleRoute env).action = .sessionExpired env.modalPresent) ∧
        (∀ comp, (handleRoute env).action = .load comp →
            env.sessionValid = .ok true)) := by
  constructor
  · intro hpub
    have hmem : routePathOf env.rawHash ∈ PUBLIC_ROUTES := by simpa using hpub
    simp [handleRoute, hfound, hcomp, jsTruthy, hc, hmem]
  · intro hpriv
    have hmem : routePathOf env.rawHash ∉ PUBLIC_ROUTES := by simpa using hpriv
    cases hs : env.sessionValid with
    | error e =>
      refine ⟨?_, ?_, ?_⟩
      · simp [handleRoute, hfound, hcomp, jsTruthy, hc, hmem, hs]
      · intro hok; simp [hs] at hok
      · intro comp hload
        exfalso
        simp [handleRoute, hfound, hcomp, jsTruthy, hc, hmem, hs] at hload
    | ok b =>
      cases b with
      | false =>
        refine ⟨?_, ?_, ?_⟩
        · simp [handleRoute, hfound, hcomp, jsTruthy, hc, hmem, hs]
        · intro _
          simp [handleRoute, hfound, hcomp, jsTruthy, hc, hmem, hs]
        · intro comp hload
          exfalso
          simp [handleRoute, hfound, hcomp, jsTruthy, hc, hmem, hs] at hload
      | true =>
        refine ⟨?_, ?_, ?_⟩
        · simp [handleRoute, hfound, hcomp, jsTruthy, hc, hmem, hs]
        · intro hok; simp [hs] at hok
        · intro comp _; rfl

/-- Witness for C10: `/secure-page` is not public, so an invalid session
shows the modal and the component is not loaded; `/login` is public and
loads without a session check. -/
theorem router_session_gate_witness :
    handleRoute ⟨"#/secure-page",
        [("/secure-page", ⟨some "secure", none⟩)], .ok false, true⟩ =
      { action := .sessionExpired true, sessionChecked := true } ∧
    handleRoute ⟨"#/login", [("/login", ⟨some "login", none⟩)], .ok false, true⟩ =
      { action := .load "login", sessionChecked := false } := by
  constructor
  · have h := (router_session_gate
      ⟨"#/secure-page", [("/secure-page", ⟨some "secure", none⟩)], .ok false, true⟩
      ⟨some "secure", none⟩ "secure" (by decide) rfl (by decide)).2 (by decide)
    obtain ⟨h1, h2, _⟩ := h
    have h3 := h2 rfl
    cases hres : handleRoute ⟨"#/secure-page",
        [("/secure-page", ⟨some "secure", none⟩)], .ok false, true⟩ with
    | mk a sc =>
      rw [hres] at h1 h3
      simp at h1 h3
      rw [h1, h3]
  · exact (router_session_gate
      ⟨"#/login", [("/login", ⟨some "login", none⟩)], .ok false, true⟩
      ⟨some "login", none⟩ "login" (by decide) rfl (by decide)).1 (by decide)

/-- C1: when the provider reports the user is not signed in, `signInUser`
maps each next-step value to exactly one named status: `MFASetup` (with
an `mfaSetupUrl`) for `CONTINUE_SIGN_IN_WITH_TOTP_SETUP`, `MFA` for
`CONFIRM_SIGN_IN_WITH_TOTP_CODE`, `ResetPasswordConfirm` for
`RESET_PASSWORD`, and `UpdatePassword` for
`CONFIRM_SIGN_IN_WITH_NEW_PASSWORD_REQUIRED`. -/
theorem signin_nextstep_status_map (env : SignInEnv) (email password : String)
    (r : SignInResult) (h1 : env.firstSignIn = .ok r)
    (h2 : r.isSignedIn = false) :
    (r.signInStep = "CONTINUE_SIGN_IN_WITH_TOTP_SETUP" →
        (signInUser env email password).result =
          .ok { status := "MFASetup"
                mfaSetupUrl := r.totpSetupDetails.map
                  (fun d => getSetupUri d "OpenLogx" email) } ∧
        (r.totpSetupDetails.isSome = true →
          (r.totpSetupDetails.map
            (fun d => getSetupUri d "OpenLogx" email)).isSome = true)) ∧
    (r.signInStep = "CONFIRM_SIGN_IN_WITH_TOTP_CODE" →
        (signInUser env email password).result = .ok { status := "MFA" }) ∧
    (r.signInStep = "RESET_PASSWORD" →
        (signInUser env email password).result =
          .ok { status := "ResetPasswordConfirm" }) ∧
    (r.signInStep = "CONFIRM_SIGN_IN_WITH_NEW_PASSWORD_REQUIRED" →
        (signInUser env email password).result =
          .ok { status := "UpdatePassword" }) := by
  refine ⟨?_, ?_, ?_, ?_⟩
  · intro hstep
    constructor
    · simp [signInUser, h1, dispatchSignIn, h2, hstep]
    · intro hd
      cases ht : r.totpSetupDetails with
      | none => rw [ht] at hd; simp at hd
      | some d => simp [ht]
  · intro hstep
    simp [signInUser, h1, dispatchSignIn, h2, hstep]
  · intro hstep
    simp [signInUser, h1, dispatchSignIn, h2, hstep]
  · intro hstep
    simp [signInUser, h1, dispatchSignIn, h2, hstep]

/-- Witness for C1: a concrete not-signed-in response with next step
`CONFIRM_SIGN_IN_WITH_TOTP_CODE` yields status `MFA`. -/
theorem signin_nextstep_status_map_witness :
    (signInUser baseSignInEnv "user@example.org" "pw").result =
      .ok { status := "MFA" } :=
  (signin_nextstep_status_map baseSignInEnv "user@example.org" "pw"
    notSignedInTotpCode rfl rfl).2.1 rfl

lemma submitMfaForm_calls_le_one (e : MfaEnv) :
    (submitMfaForm e).verifyCalls ≤ 1 := by
  by_cases hc : (joinedCode e.digits).length = 6
  · cases hv : e.verifyResult with
    | ok r =>
      by_cases hs : r.status = "Success" <;> simp [submitMfaForm, hc, hv, hs]
    | error er => simp [submitMfaForm, hc, hv]
  · simp [submitMfaForm, hc]

lemma submitMfaForm_failure_effects (e : MfaEnv)
    (hlen : (joinedCode e.digits).length = 6)
    (hfail : verifySucceeded e = false) :
    (∃ msg, (submitMfaForm e).notifications = [("error", msg, "MFA Error")]) ∧
    (submitMfaForm e).redirect = none ∧
    (e.submitBtnPresent = true →
      (submitMfaForm e).submitBtnDisabled = some false) := by
  cases hv : e.verifyResult with
  | ok r =>
    have hs : (r.status == "Success") = false := by
      rw [verifySucceeded, hv] at hfail; exact hfail
    refine ⟨⟨jsOrDefault r.errorMsg "MFA code verification failed.", ?_⟩, ?_, ?_⟩ <;>
      simp [submitMfaForm, hlen, hv, hs]
  | error er =>
    refine ⟨⟨jsStrOr er.message "Unexpected error during MFA verification.", ?_⟩, ?_, ?_⟩ <;>
      simp [submitMfaForm, hlen, hv]

/-- C2: when the six digit inputs joined (and trimmed) form a
6-character code, one submit event calls `verifyMFACode` exactly once;
no submission ever calls it more than once. -/
theorem mfa_verify_called_exactly_once (env : MfaEnv)
    (h : (joinedCode env.digits).length = 6) :
    (submitMfaForm env).verifyCalls = 1 ∧
    ∀ e : MfaEnv, (submitMfaForm e).verifyCalls ≤ 1 := by
  constructor
  · cases hv : env.verifyResult with
    | ok r =>
      by_cases hs : r.status = "Success" <;> simp [submitMfaForm, h, hv, hs]
    | error er => simp [submitMfaForm, h, hv]
  · exact submitMfaForm_calls_le_one

/-- Witness for C2 at a concrete six-digit submission. -/
theorem mfa_verify_called_exactly_once_witness :
    (joinedCode sampleMfaEnv.digits).length = 6 ∧
    (submitMfaForm sampleMfaEnv).verifyCalls = 1 :=
  ⟨by decide, (mfa_verify_called_exactly_once sampleMfaEnv (by decide)).1⟩

/-- C3: a submission whose joined code is not 6 characters shows the
banner `Please enter a full 6-digit code`, does not call the verify
function and does not redirect; a submission whose verification result
is not `Success` raises an error notification and does not redirect. -/
theorem mfa_failure_paths (env : MfaEnv)
    (hbox : env.errorBoxPresent = true) :
    ((joinedCode env.digits).length ≠ 6 →
        (submitMfaForm env).banner = .shown "Please enter a full 6-digit code" ∧
        (submitMfaForm env).verifyCalls = 0 ∧
        (submitMfaForm env).redirect = none) ∧
    ((joinedCode env.digits).length = 6 → verifySucceeded env = false →
        (∃ msg, (submitMfaForm env).notifications = [("error", msg, "MFA Error")]) ∧
        (submitMfaForm env).redirect = none) := by
  constructor
  · intro hlen
    simp [submitMfaForm, hlen, hbox]
  · intro hlen hfail
    exact ⟨(submitMfaForm_failure_effects env hlen hfail).1,
           (submitMfaForm_failure_effects env hlen hfail).2.1⟩

/-- Witness for C3: a three-digit submission shows the banner, skips the
verify call and does not redirect. -/
theorem mfa_failure_paths_witness :
    (submitMfaForm shortMfaEnv).banner = .shown "Please enter a full 6-digit code" ∧
    (submitMfaForm shortMfaEnv).verifyCalls = 0 ∧
    (submitMfaForm shortMfaEnv).redirect = none :=
  (mfa_failure_paths shortMfaEnv rfl).1 (by decide)

/-- C4 counterexample: the claim "no retry of the identity-provider
call" fails on the code — when the first `signIn` rejects with a message
containing `There is already a signed in user`, `signInUser` signs out
and calls the provider's `signIn` a second time. -/
theorem signin_retry_counterexample :
    retrySignInEnv.firstSignIn = .error alreadySignedInError ∧
    (signInUser retrySignInEnv "user@example.org" "pw").signInCalls = 2 :=
  ⟨rfl, by decide⟩

/-- C4 (amended): when a form submission's identity-provider call fails,
the program performs no retry — except that `signInUser` retries the
`signIn` call exactly once, after a `signOut`, when the failure message
contains `There is already a signed in user`; every other sign-in error
is rethrown after a single call, and the MFA submit handler's only
recovery on a failed verification is re-enabling the submit button and
an error toast, never a second verify call. -/
theorem signin_failure_recovery (env : SignInEnv) (email password : String)
    (e : JSError) (h : env.firstSignIn = .error e) (menv : MfaEnv) :
    (containsSubstr e.message "There is already a signed in user" = false →
        (signInUser env email password).result = .error e ∧
        (signInUser env email password).signInCalls = 1) ∧
    (containsSubstr e.message "There is already a signed in user" = true →
        env.signOutResult = .ok () →
        (signInUser env email password).signInCalls = 2) ∧
    ((submitMfaForm menv).verifyCalls ≤ 1) ∧
    ((joinedCode menv.digits).length = 6 → verifySucceeded menv = false →
        menv.submitBtnPresent = true →
        (submitMfaForm menv).submitBtnDisabled = some false ∧
        (∃ msg, (submitMfaForm menv).notifications = [("error", msg, "MFA Error")]) ∧
        (submitMfaForm menv).redirect = none) := by
  refine ⟨?_, ?_, submitMfaForm_calls_le_one menv, ?_⟩
  · intro hno
    constructor <;> simp [signInUser, h, hno]
  · intro hyes hso
    cases hs2 : env.secondSignIn <;> simp [signInUser, h, hyes, hso, hs2]
  · intro hlen hfail hbtn
    obtain ⟨hnotif, hredir, hbtn2⟩ := submitMfaForm_failure_effects menv hlen hfail
    exact ⟨hbtn2 hbtn, hnotif, hredir⟩

/-- Witness for C4 (amended): an ordinary credential failure is rethrown
after a single `signIn` call. -/
theorem signin_failure_recovery_witness :
    (signInUser failSignInEnv "user@example.org" "pw").signInCalls = 1 ∧
    (submitMfaForm failedMfaEnv).submitBtnDisabled = some false := by
  have h := signin_failure_recovery failSignInEnv "user@example.org" "pw"
    badPasswordError rfl failedMfaEnv
  exact ⟨(h.1 (by decide)).2, (h.2.2.2 (by decide) (by decide) rfl).1⟩

/-- C6: a user-cancelled WebAuthn dialog (`NotAllowedError`) is not
propagated: `signInWithPasskey` resolves with status `Cancelled` and
message `Authentication was cancelled`, and the login component's
passkey click handler raises no notification for that status (its
`switch` sends it to the log-only `default` case). -/
theorem passkey_cancellation_silent (env : PasskeyEnv) (e : JSError)
    (hsup : env.webAuthnSupported = true)
    (herr : env.signInResult = .error e)
    (hname : e.name = "NotAllowedError") :
    signInWithPasskey env =
      { status := "Cancelled", error := some "Authentication was cancelled" } ∧
    ∀ endpoint,
      (passkeyClickActions (signInWithPasskey env) endpoint).2 = [] := by
  have hres : signInWithPasskey env =
      { status := "Cancelled", error := some "Authentication was cancelled" } := by
    simp [signInWithPasskey, hsup, herr, hname]
  refine ⟨hres, fun endpoint => ?_⟩
  rw [hres]
  rfl

/-- Witness for C6 at a concrete cancelled dialog. -/
theorem passkey_cancellation_silent_witness :
    signInWithPasskey cancelPasskeyEnv =
      { status := "Cancelled", error := some "Authentication was cancelled" } ∧
    (passkeyClickActions (signInWithPasskey cancelPasskeyEnv) "/secure/").2 = [] := by
  have h := passkey_cancellation_silent cancelPasskeyEnv
    cancelledDialogError rfl rfl rfl
  exact ⟨h.1, h.2 "/secure/"⟩

/-- C9: `setJWTCookie` never writes a cookie from an expired token — an
empty token, or a successfully parsed payload whose `exp` is at or
before now, returns without touching `document.cookie`; the 1-hour
fallback cookie is written exactly when parsing fails. -/
theorem cookie_expiry_guard (env : CookieEnv) :
    (env.jwt = "" → setJWTCookie env = none) ∧
    (∀ p e, env.parsedPayload = .ok p → p.exp = some e →
        e * 1000 ≤ env.nowMs → setJWTCookie env = none) ∧
    (env.jwt ≠ "" → env.parsedPayload = .error () →
        setJWTCookie env =
          some { token := env.jwt, expiresMs := some (env.nowMs + 3600000),
                 fallback := true }) ∧
    (∀ w, setJWTCookie env = some w → w.fallback = true →
        env.parsedPayload = .error ()) := by
  refine ⟨?_, ?_, ?_, ?_⟩
  · intro h; simp [setJWTCookie, h]
  · intro p e hp he hle
    by_cases hj : env.jwt = ""
    · simp [setJWTCookie, hj]
    · simp [setJWTCookie, hj, hp, he, hle]
  · intro hj hp
    simp [setJWTCookie, hj, hp]
  · intro w hw hfb
    by_cases hj : env.jwt = ""
    · simp [setJWTCookie, hj] at hw
    · cases hp : env.parsedPayload with
      | error u => cases u; rfl
      | ok p =>
        cases he : p.exp with
        | some e =>
          by_cases hle : e * 1000 ≤ env.nowMs
          · simp [setJWTCookie, hj, hp, he, hle] at hw
          · simp [setJWTCookie, hj, hp, he, hle] at hw
            rw [← hw] at hfb
            simp at hfb
        | none =>
          simp [setJWTCookie, hj, hp, he] at hw
          rw [← hw] at hfb
          simp at hfb

/-- Witness for C9: a parsed payload whose `exp` (1000 s) is before now
(2000 s) produces no cookie write. -/
theorem cookie_expiry_guard_witness :
    setJWTCookie expiredCookieEnv = none :=
  (cookie_expiry_guard expiredCookieEnv).2.1 { exp := some 1000 } 1000
    rfl rfl (by decide)

end Portal
